import Mathlib

/-!
Shallow embedding of the Django recipe API backend (user, recipe, tag and
ingredient endpoints) and proofs about its request handling.

The embedding follows the source files:
  app/recipe/views.py   (RecipeViewSet, TagViewSet, IngredientViewSet)
  app/recipe/urls.py    (DefaultRouter registration)
  app/user/views.py     (CreateUserViews, CreateTokenView, ManageUserView)
  app/app/test.py       (CalcTests)

Framework behaviour of Django REST Framework that the views rely on is
embedded explicitly: authentication runs before method dispatch, the
`IsAuthenticated` permission rejects unauthenticated requests, a viewset
only serves the actions its mixins provide (anything else is 405), and a
detail action looks its object up inside the view's queryset (absent pk is
404).  Machine-level details (JSON wire format, HTTP parsing) are out of
scope; responses are modelled as a numeric status plus a structured body.
-/

namespace RecipeApp

/-- A user account row: the authentication principal that owns every other
entity. -/
structure User where
  id : Nat
  email : String
  deriving Repr, DecidableEq

/-- A recipe row (`core.models.Recipe`): owned by a user via the `user`
foreign key. -/
structure Recipe where
  id : Nat
  user : Nat
  title : String
  deriving Repr, DecidableEq

/-- A tag row (`core.models.Tag`): a name-bearing entity owned by a user. -/
structure Tag where
  id : Nat
  user : Nat
  name : String
  deriving Repr, DecidableEq

/-- An ingredient row (`core.models.Ingredient`): a name-bearing entity owned
by a user. -/
structure Ingredient where
  id : Nat
  user : Nat
  name : String
  deriving Repr, DecidableEq

/-- The database state: one table per model, plus the auth-token table
mapping a token key to the id of the user it was issued to. -/
structure Db where
  users : List User
  recipes : List Recipe
  tags : List Tag
  ingredients : List Ingredient
  tokens : List (String × Nat)
  deriving Repr, DecidableEq

/-- An incoming HTTP request, reduced to what the views consult: the
credential carried in the Authorization header (`some key` for a request
bearing token `key`, `none` for an unauthenticated request). -/
structure Request where
  credentials : Option String
  deriving Repr, DecidableEq

/-- The authentication schemes a view can be configured with.  Every view in
the source uses `rest_framework.authentication.TokenAuthentication`. -/
inductive AuthClass
  | tokenAuth
  deriving Repr, DecidableEq, BEq

/-- Token authentication: resolve the request's token key against the token
table; an absent or unknown key authenticates nobody. -/
def authTokenUser (db : Db) (req : Request) : Option Nat :=
  match req.credentials with
  | none => none
  | some k =>
    match db.tokens.find? (fun p => p.1 == k) with
    | none => none
    | some p => some p.2

/-- Run a view's configured authentication classes in order, returning the id
of the authenticated user, if any (DRF `perform_authentication`). -/
def runAuth (db : Db) (cs : List AuthClass) (req : Request) : Option Nat :=
  match cs with
  | [] => none
  | AuthClass.tokenAuth :: rest =>
    match authTokenUser db req with
    | some u => some u
    | none => runAuth db rest req

/-- Modelled from the spec: the project settings module (`app/app/settings.py`)
is not under src/, so DRF's default authentication classes for a view that
sets none are taken from the spec, whose interface section states that
authentication on these endpoints is a bearer token in the request header
issued by the token endpoint. -/
def defaultAuthenticationClasses : List AuthClass :=
  [AuthClass.tokenAuth]

/-- Stable insertion step for a descending sort: `x` is placed before the
first element strictly below it. -/
def insertDescBy (lt : α → α → Bool) (x : α) : List α → List α
  | [] => [x]
  | y :: ys => if lt y x then x :: y :: ys else y :: insertDescBy lt x ys

/-- Django `order_by("-field")`: sort a queryset in descending order of the
strict comparison `lt`. -/
def orderByDesc (lt : α → α → Bool) : List α → List α
  | [] => []
  | x :: xs => insertDescBy lt x (orderByDesc lt xs)

/-- The strict name order used by `order_by("-name")` on tags: lexicographic
on the character sequences, which is exactly `String.lt` (a string order is
the List.lt of its data). -/
def tagNameLt (a b : Tag) : Bool :=
  decide (a.name.data < b.name.data)

/-- The strict name order used by `order_by("-name")` on ingredients. -/
def ingredientNameLt (a b : Ingredient) : Bool :=
  decide (a.name.data < b.name.data)

/-- The strict id order used by `order_by("-id")` on recipes. -/
def recipeIdLt (a b : Recipe) : Bool :=
  decide (a.id < b.id)

/-- RecipeViewSet.authentication_classes (views.py line 19). -/
def RecipeViewSet.authentication_classes : List AuthClass :=
  [AuthClass.tokenAuth]

/-- RecipeViewSet.get_queryset (views.py lines 22-24): the recipes of the
authenticated user, ordered by `-id`. -/
def RecipeViewSet.get_queryset (db : Db) (u : Nat) : List Recipe :=
  orderByDesc recipeIdLt (db.recipes.filter (fun r => r.user == u))

/-- TagViewSet line 47 sets `authentication_class` (sic, singular): this is
not a DRF attribute, so the view's effective authentication classes fall back
to the project default. -/
def TagViewSet.effectiveAuthenticationClasses : List AuthClass :=
  defaultAuthenticationClasses

/-- TagViewSet.get_queryset (views.py lines 50-52): the tags of the
authenticated user, ordered by `-name`. -/
def TagViewSet.get_queryset (db : Db) (u : Nat) : List Tag :=
  orderByDesc tagNameLt (db.tags.filter (fun t => t.user == u))

/-- IngredientViewSet.authentication_classes (views.py line 62). -/
def IngredientViewSet.authentication_classes : List AuthClass :=
  [AuthClass.tokenAuth]

/-- IngredientViewSet.get_query (views.py lines 65-67): the owner-scoped,
name-ordered queryset the class defines.  The method name is not the DRF
hook `get_queryset`, so the framework never calls it. -/
def IngredientViewSet.get_query (db : Db) (u : Nat) : List Ingredient :=
  orderByDesc ingredientNameLt (db.ingredients.filter (fun i => i.user == u))

/-- The queryset the framework actually uses for IngredientViewSet: with no
`get_queryset` override, `GenericAPIView.get_queryset` returns the class
attribute `queryset = Ingredient.objects.all()` (views.py line 61), every
ingredient of every user in table order. -/
def IngredientViewSet.effective_queryset (db : Db) (_u : Nat) : List Ingredient :=
  db.ingredients

/-- ManageUserView.authentication_classes (user/views.py line 31). -/
def ManageUserView.authentication_classes : List AuthClass :=
  [AuthClass.tokenAuth]

/-- The viewset actions DRF's mixins provide.  `patch` stands for the DRF
action named `partial_update` (PATCH on a detail route). -/
inductive Action
  | list
  | create
  | retrieve
  | update
  | patch
  | destroy
  deriving Repr, DecidableEq, BEq

/-- RecipeViewSet is a `ModelViewSet` (views.py line 13): all six actions. -/
def RecipeViewSet.actions : List Action :=
  [Action.list, Action.create, Action.retrieve, Action.update,
   Action.patch, Action.destroy]

/-- TagViewSet mixes in Update, Destroy and List only (views.py lines
40-43): no create and no retrieve action. -/
def TagViewSet.actions : List Action :=
  [Action.update, Action.patch, Action.destroy, Action.list]

/-- IngredientViewSet mixes in List, Update and Destroy only (views.py lines
55-58): no create and no retrieve action. -/
def IngredientViewSet.actions : List Action :=
  [Action.list, Action.update, Action.patch, Action.destroy]

/-- HTTP methods relevant to the registered routes. -/
inductive Method
  | get
  | post
  | put
  | patch
  | delete
  deriving Repr, DecidableEq, BEq

/-- DefaultRouter's method-to-action map (urls.py lines 10-13): on a list
route GET is `list` and POST is `create`; on a detail route GET is
`retrieve`, PUT is `update`, PATCH is `partial_update` and DELETE is
`destroy`. -/
def actionFor (m : Method) (detail : Bool) : Option Action :=
  match m, detail with
  | Method.get, false => some Action.list
  | Method.post, false => some Action.create
  | Method.get, true => some Action.retrieve
  | Method.put, true => some Action.update
  | Method.patch, true => some Action.patch
  | Method.delete, true => some Action.destroy
  | _, _ => none

/-- The authenticated endpoints of the API: the recipe, tag and ingredient
list and detail routes, and the user-management route `/api/user/me/`. -/
inductive Endpoint
  | recipeList
  | recipeDetail (pk : Nat)
  | tagList
  | tagDetail (pk : Nat)
  | ingredientList
  | ingredientDetail (pk : Nat)
  | userMe
  deriving Repr, DecidableEq

/-- The authentication classes in force at each endpoint: the attribute the
view sets, or the project default for TagViewSet, whose attribute is
misspelled. -/
def endpointAuthenticationClasses : Endpoint → List AuthClass
  | Endpoint.recipeList => RecipeViewSet.authentication_classes
  | Endpoint.recipeDetail _ => RecipeViewSet.authentication_classes
  | Endpoint.tagList => TagViewSet.effectiveAuthenticationClasses
  | Endpoint.tagDetail _ => TagViewSet.effectiveAuthenticationClasses
  | Endpoint.ingredientList => IngredientViewSet.authentication_classes
  | Endpoint.ingredientDetail _ => IngredientViewSet.authentication_classes
  | Endpoint.userMe => ManageUserView.authentication_classes

/-- Status-level behaviour of a DRF generic viewset, following
`APIView.dispatch`: `initial` runs authentication and the `IsAuthenticated`
permission first (401 on failure), then the handler is looked up (405 when
the route maps the method to no action of this viewset), then a detail
action fetches its object from the view's queryset (404 when the pk is not
there); a served action answers 201 for create, 204 for destroy and 200
otherwise. -/
def vsStatus (auth : List AuthClass) (acts : List Action)
    (member : Nat → Nat → Bool) (db : Db) (pk? : Option Nat)
    (m : Method) (req : Request) : Nat :=
  match runAuth db auth req with
  | none => 401
  | some u =>
    match actionFor m pk?.isSome with
    | none => 405
    | some a =>
      if acts.contains a then
        match pk? with
        | none => if a == Action.create then 201 else 200
        | some pk =>
          if member u pk then
            if a == Action.destroy then 204 else 200
          else 404
      else 405

/-- The response status each endpoint gives a request, assembled from the
view configurations in the source. -/
def dispatchStatus (db : Db) (ep : Endpoint) (m : Method) (req : Request) : Nat :=
  match ep with
  | Endpoint.recipeList =>
    vsStatus RecipeViewSet.authentication_classes RecipeViewSet.actions
      (fun u pk => (RecipeViewSet.get_queryset db u).any (fun r => r.id == pk))
      db none m req
  | Endpoint.recipeDetail pk =>
    vsStatus RecipeViewSet.authentication_classes RecipeViewSet.actions
      (fun u k => (RecipeViewSet.get_queryset db u).any (fun r => r.id == k))
      db (some pk) m req
  | Endpoint.tagList =>
    vsStatus TagViewSet.effectiveAuthenticationClasses TagViewSet.actions
      (fun u pk => (TagViewSet.get_queryset db u).any (fun t => t.id == pk))
      db none m req
  | Endpoint.tagDetail pk =>
    vsStatus TagViewSet.effectiveAuthenticationClasses TagViewSet.actions
      (fun u k => (TagViewSet.get_queryset db u).any (fun t => t.id == k))
      db (some pk) m req
  | Endpoint.ingredientList =>
    vsStatus IngredientViewSet.authentication_classes IngredientViewSet.actions
      (fun u pk => (IngredientViewSet.effective_queryset db u).any (fun i => i.id == pk))
      db none m req
  | Endpoint.ingredientDetail pk =>
    vsStatus IngredientViewSet.authentication_classes IngredientViewSet.actions
      (fun u k => (IngredientViewSet.effective_queryset db u).any (fun i => i.id == k))
      db (some pk) m req
  | Endpoint.userMe =>
    match runAuth db ManageUserView.authentication_classes req with
    | none => 401
    | some _ =>
      match m with
      | Method.get => 200
      | Method.put => 200
      | Method.patch => 200
      | _ => 405

/-- GET on the ingredient list route: authenticate, then serialize the
view's effective queryset. -/
def IngredientViewSet.listResponse (db : Db) (req : Request) :
    Nat × List Ingredient :=
  match runAuth db IngredientViewSet.authentication_classes req with
  | none => (401, [])
  | some u => (200, IngredientViewSet.effective_queryset db u)

/-- PATCH on an ingredient detail route: authenticate, fetch the object from
the view's effective queryset (404 when absent), then write the new name. -/
def IngredientViewSet.updateResponse (db : Db) (req : Request) (pk : Nat)
    (newName : String) : Nat × Db :=
  match runAuth db IngredientViewSet.authentication_classes req with
  | none => (401, db)
  | some u =>
    match (IngredientViewSet.effective_queryset db u).find? (fun i => i.id == pk) with
    | none => (404, db)
    | some _ =>
      (200, { db with
        ingredients := db.ingredients.map
          (fun i => if i.id == pk then { i with name := newName } else i) })

/-- The two serializer classes the recipe viewset chooses between. -/
inductive SerializerClass
  | RecipeSerializer
  | RecipeDetailSerializer
  deriving Repr, DecidableEq

/-- RecipeViewSet.serializer_class (views.py line 16). -/
def RecipeViewSet.serializer_class : SerializerClass :=
  SerializerClass.RecipeSerializer

/-- RecipeViewSet.get_serializer_class (views.py lines 26-33): the list
action uses RecipeSerializer; retrieve, update and partial_update use
RecipeDetailSerializer; anything else falls back to `self.serializer_class`. -/
def RecipeViewSet.get_serializer_class (a : Action) : SerializerClass :=
  if a = Action.list then
    SerializerClass.RecipeSerializer
  else if a = Action.retrieve ∨ a = Action.update ∨ a = Action.patch then
    SerializerClass.RecipeDetailSerializer
  else
    RecipeViewSet.serializer_class

/-- Modelled from the spec: `app/recipe/serializers.py` is not under src/;
the spec's data-model section says the recipe detail serializer is a richer
representation of the same recipe than the list serializer, so its field set
properly extends the list serializer's. -/
def recipeSerializerFields : List String :=
  ["id", "title", "time_minutes", "price", "link"]

/-- Modelled from the spec: the detail representation extends the list
representation with the long-form fields. -/
def recipeDetailSerializerFields : List String :=
  recipeSerializerFields ++ ["description"]

/-- The JSON field set each serializer class renders. -/
def fieldsOf : SerializerClass → List String
  | SerializerClass.RecipeSerializer => recipeSerializerFields
  | SerializerClass.RecipeDetailSerializer => recipeDetailSerializerFields

/-- The request body of a recipe create call.  The `user` field models a
client trying to name an owner in the payload; the view never reads it. -/
structure RecipeBody where
  title : String
  user : Option Nat
  deriving Repr, DecidableEq

/-- The primary key the database hands the next inserted recipe. -/
def nextRecipeId (db : Db) : Nat :=
  (db.recipes.map (fun r => r.id)).foldr Nat.max 0 + 1

/-- RecipeViewSet.perform_create (views.py lines 35-37):
`serializer.save(user=self.request.user)` stores the validated title with
the owner forced to the authenticated requester. -/
def RecipeViewSet.perform_create (db : Db) (u : Nat) (body : RecipeBody) : Db :=
  { db with
    recipes := db.recipes ++ [{ id := nextRecipeId db, user := u, title := body.title }] }

/-- POST on the recipe list route: authenticate, then create through
`perform_create`. -/
def RecipeViewSet.createResponse (db : Db) (req : Request) (body : RecipeBody) :
    Nat × Db :=
  match runAuth db RecipeViewSet.authentication_classes req with
  | none => (401, db)
  | some u => (201, RecipeViewSet.perform_create db u body)

/-- GET on `/api/user/me/`: ManageUserView.get_object (user/views.py lines
34-36) returns `self.request.user`, so the body is the authenticated user's
own id. -/
def ManageUserView.retrieveResponse (db : Db) (req : Request) :
    Nat × Option Nat :=
  match runAuth db ManageUserView.authentication_classes req with
  | none => (401, none)
  | some u => (200, some u)

/-- PATCH on `/api/user/me/`: the object being updated is
`self.request.user`, so only the requester's own row changes. -/
def ManageUserView.updateResponse (db : Db) (req : Request)
    (newEmail : String) : Nat × Db :=
  match runAuth db ManageUserView.authentication_classes req with
  | none => (401, db)
  | some u =>
    (200, { db with
      users := db.users.map
        (fun x => if x.id == u then { x with email := newEmail } else x) })

/-- Modelled from the spec: `app/app/calc.py` is not under src/ (only its
test is); the spec and the test `CalcTests.test_add_number` state that
`calc.add` returns the sum of its two arguments. -/
def calcAdd (x y : Int) : Int :=
  x + y

/-- A first user, in the style of the repository's test fixtures. -/
def exUser1 : User :=
  { id := 1, email := "user@example.com" }

/-- A second user. -/
def exUser2 : User :=
  { id := 2, email := "user2@example.com" }

/-- An ingredient owned by the second user. -/
def exOtherIngredient : Ingredient :=
  { id := 10, user := 2, name := "other ingredient" }

/-- A database holding both users, the second user's ingredient, and a token
issued to the first user. -/
def exDb : Db :=
  { users := [exUser1, exUser2]
    recipes := []
    tags := []
    ingredients := [exOtherIngredient]
    tokens := [("tok1", 1)] }

/-- A request bearing the first user's token. -/
def exReq : Request :=
  { credentials := some "tok1" }

/-- A database where the first user owns a Kale ingredient. -/
def exDbKale : Db :=
  { users := [exUser1]
    recipes := []
    tags := []
    ingredients := [{ id := 1, user := 1, name := "Kale" }]
    tokens := [("tok1", 1)] }

/-- A database with rows of both users in every table, inserted in ascending
id order, for the ordering claims. -/
def exDbOrd : Db :=
  { users := [exUser1, exUser2]
    recipes := [{ id := 1, user := 1, title := "r1" }, { id := 2, user := 1, title := "r2" }]
    tags := [{ id := 1, user := 1, name := "Dessert" }, { id := 2, user := 1, name := "Vegan" }]
    ingredients := [{ id := 1, user := 1, name := "Kale" },
                    { id := 2, user := 1, name := "Salt" },
                    { id := 3, user := 2, name := "Pepper" }]
    tokens := [("tok1", 1)] }

/-- A request with no Authorization header authenticates nobody, whatever
authentication classes a view configures. -/
theorem runAuth_eq_none_of_no_credentials (db : Db) (cs : List AuthClass)
    (req : Request) (h : req.credentials = none) :
    runAuth db cs req = none := by
  induction cs with
  | nil => rfl
  | cons c rest ih =>
    cases c
    simp [runAuth, authTokenUser, h, ih]

/-- A request whose token key resolves in the token table authenticates as
the user the token was issued to. -/
theorem runAuth_token_eq_some (db : Db) (req : Request) (k : String) (u : Nat)
    (hc : req.credentials = some k)
    (ht : db.tokens.find? (fun p => p.1 == k) = some (k, u)) :
    runAuth db [AuthClass.tokenAuth] req = some u := by
  simp [runAuth, authTokenUser, hc, ht]

/-- An authenticated request is never answered 401 by a viewset route. -/
theorem vsStatus_ne_401 {auth : List AuthClass} {acts : List Action}
    {member : Nat → Nat → Bool} {db : Db} {pk? : Option Nat} {m : Method}
    {req : Request} {u : Nat} (h : runAuth db auth req = some u) :
    vsStatus auth acts member db pk? m req ≠ 401 := by
  simp only [vsStatus, h]
  split
  · simp
  · split
    · split
      · split <;> simp
      · split
        · split <;> simp
        · simp
    · simp

/-- C1: the claim says every list response on the recipe, tag and ingredient
endpoints contains only entities owned by the requester.  On the ingredient
endpoint the code violates it: `get_queryset` is misspelled `get_query`, so
the framework serves `Ingredient.objects.all()`, and user 1's authenticated
list request returns user 2's ingredient; the owner-scoped queryset the
class body meant to install is empty here. -/
theorem c1_ingredient_list_leaks_other_users_rows :
    runAuth exDb IngredientViewSet.authentication_classes exReq = some 1 ∧
    IngredientViewSet.listResponse exDb exReq = (200, [exOtherIngredient]) ∧
    exOtherIngredient.user = 2 ∧
    IngredientViewSet.get_query exDb 1 = [] :=
  ⟨rfl, rfl, rfl, rfl⟩

/-- C2: a request carrying no authentication credentials receives HTTP 401
from every listed endpoint (user me, recipes, tags, ingredients), whatever
the method and the database state. -/
theorem c2_unauthenticated_requests_get_401 (db : Db) (ep : Endpoint)
    (m : Method) (req : Request) (h : req.credentials = none) :
    dispatchStatus db ep m req = 401 := by
  have h1 : ∀ cs : List AuthClass, runAuth db cs req = none := fun cs =>
    runAuth_eq_none_of_no_credentials db cs req h
  cases ep <;>
    simp [dispatchStatus, vsStatus, h1]

/-- Witness for C2 at a concrete endpoint, database and request. -/
theorem c2_unauthenticated_requests_get_401_witness :
    (Request.mk none).credentials = none ∧
    dispatchStatus exDb Endpoint.ingredientList Method.get (Request.mk none) = 401 :=
  ⟨rfl, c2_unauthenticated_requests_get_401 exDb Endpoint.ingredientList
    Method.get (Request.mk none) rfl⟩

/-- C3 counterexample: the claim says an authenticated POST of a new
ingredient succeeds; the ingredient viewset has no create mixin, so the
router maps POST to no action and an authenticated POST is answered 405, not
a success status. -/
theorem c3_counterexample_ingredient_post_is_405 :
    runAuth exDbKale IngredientViewSet.authentication_classes exReq = some 1 ∧
    dispatchStatus exDbKale Endpoint.ingredientList Method.post exReq = 405 ∧
    dispatchStatus exDbKale Endpoint.ingredientList Method.post exReq ≠ 201 :=
  ⟨rfl, rfl, by decide⟩

/-- C3 amended: an authenticated POST to the ingredient list endpoint is
rejected with 405 (the viewset registers no create action), and an
ingredient named Kale already stored for the requesting user does appear in
the user's list response. -/
theorem c3_amended_ingredient_post_rejected (db : Db) (req : Request) (u : Nat)
    (h : runAuth db IngredientViewSet.authentication_classes req = some u) :
    dispatchStatus db Endpoint.ingredientList Method.post req = 405 ∧
    (IngredientViewSet.listResponse db req).1 = 200 ∧
    ∀ i ∈ db.ingredients, i.user = u → i.name = "Kale" →
      i ∈ (IngredientViewSet.listResponse db req).2 := by
  refine ⟨?_, ?_, ?_⟩
  · simp only [dispatchStatus, vsStatus, h]
    decide
  · simp [IngredientViewSet.listResponse, h]
  · intro i hi _ _
    simpa [IngredientViewSet.listResponse, h, IngredientViewSet.effective_queryset]
      using hi

/-- Witness for the amended C3 at a concrete database and request. -/
theorem c3_amended_ingredient_post_rejected_witness :
    runAuth exDbKale IngredientViewSet.authentication_classes exReq = some 1 ∧
    (dispatchStatus exDbKale Endpoint.ingredientList Method.post exReq = 405 ∧
     (IngredientViewSet.listResponse exDbKale exReq).1 = 200 ∧
     ∀ i ∈ exDbKale.ingredients, i.user = 1 → i.name = "Kale" →
       i ∈ (IngredientViewSet.listResponse exDbKale exReq).2) :=
  ⟨rfl, c3_amended_ingredient_post_rejected exDbKale exReq 1 rfl⟩

/-- C4: the claim says a detail request on an entity owned by another user is
answered 404 and the entity is not mutable by the non-owner.  On the
ingredient endpoint the code violates it: the object is fetched from the
unfiltered `Ingredient.objects.all()` (the scoping method is misspelled
`get_query`), so user 1's PATCH of user 2's ingredient is answered 200 and
rewrites the foreign row; the owner-scoped queryset the class meant to use
would not have contained the pk. -/
theorem c4_non_owner_can_mutate_foreign_ingredient :
    dispatchStatus exDb (Endpoint.ingredientDetail 10) Method.patch exReq = 200 ∧
    (IngredientViewSet.updateResponse exDb exReq 10 "hacked").1 = 200 ∧
    (IngredientViewSet.updateResponse exDb exReq 10 "hacked").2.ingredients =
      [{ id := 10, user := 2, name := "hacked" }] ∧
    (IngredientViewSet.get_query exDb 1).find? (fun i => i.id == 10) = none :=
  ⟨rfl, rfl, rfl, rfl⟩

/-- C5: a request bearing a token that the token table resolves to user `u`
is authenticated as `u` on every listed endpoint, and no method on any of
those endpoints answers it 401. -/
theorem c5_token_user_is_the_requester (db : Db) (req : Request) (k : String)
    (u : Nat) (hc : req.credentials = some k)
    (ht : db.tokens.find? (fun p => p.1 == k) = some (k, u)) :
    (∀ ep : Endpoint, runAuth db (endpointAuthenticationClasses ep) req = some u) ∧
    ∀ ep m, dispatchStatus db ep m req ≠ 401 := by
  have hr : runAuth db [AuthClass.tokenAuth] req = some u :=
    runAuth_token_eq_some db req k u hc ht
  constructor
  · intro ep
    cases ep <;> exact hr
  · intro ep m
    cases ep
    case userMe =>
      simp only [dispatchStatus, ManageUserView.authentication_classes, hr]
      cases m <;> simp
    all_goals
      simp only [dispatchStatus]
      exact vsStatus_ne_401 hr

/-- Witness for C5 at a concrete database, token and request. -/
theorem c5_token_user_is_the_requester_witness :
    exReq.credentials = some "tok1" ∧
    exDb.tokens.find? (fun p => p.1 == "tok1") = some ("tok1", 1) ∧
    ((∀ ep : Endpoint, runAuth exDb (endpointAuthenticationClasses ep) exReq = some 1) ∧
     ∀ ep m, dispatchStatus exDb ep m exReq ≠ 401) :=
  ⟨rfl, rfl, c5_token_user_is_the_requester exDb exReq "tok1" 1 rfl rfl⟩

/-- C6: the recipe viewset serializes the list action with RecipeSerializer
and the retrieve, update and partial_update actions with
RecipeDetailSerializer, whose field set properly extends the list
serializer's, so single-item retrieval is the richer representation. -/
theorem c6_serializer_selection_by_action :
    RecipeViewSet.get_serializer_class Action.list = SerializerClass.RecipeSerializer ∧
    RecipeViewSet.get_serializer_class Action.retrieve = SerializerClass.RecipeDetailSerializer ∧
    RecipeViewSet.get_serializer_class Action.update = SerializerClass.RecipeDetailSerializer ∧
    RecipeViewSet.get_serializer_class Action.patch = SerializerClass.RecipeDetailSerializer ∧
    (∀ f ∈ fieldsOf (RecipeViewSet.get_serializer_class Action.list),
       f ∈ fieldsOf (RecipeViewSet.get_serializer_class Action.retrieve)) ∧
    (fieldsOf (RecipeViewSet.get_serializer_class Action.list)).length <
      (fieldsOf (RecipeViewSet.get_serializer_class Action.retrieve)).length := by
  decide

/-- C7: the claim says every list is ordered by its single column, the
ingredient list by name.  The recipe and tag querysets are indeed ordered by
descending id and name, but the ingredient list action serves the raw table,
neither owner-filtered nor ordered: it differs from the name-ordered,
owner-scoped queryset that the misspelled `get_query` builds. -/
theorem c7_ingredient_list_neither_filtered_nor_ordered :
    RecipeViewSet.get_queryset exDbOrd 1 =
      [{ id := 2, user := 1, title := "r2" }, { id := 1, user := 1, title := "r1" }] ∧
    TagViewSet.get_queryset exDbOrd 1 =
      [{ id := 2, user := 1, name := "Vegan" }, { id := 1, user := 1, name := "Dessert" }] ∧
    (IngredientViewSet.listResponse exDbOrd exReq).2 =
      [{ id := 1, user := 1, name := "Kale" }, { id := 2, user := 1, name := "Salt" },
       { id := 3, user := 2, name := "Pepper" }] ∧
    IngredientViewSet.get_query exDbOrd 1 =
      [{ id := 2, user := 1, name := "Salt" }, { id := 1, user := 1, name := "Kale" }] ∧
    (IngredientViewSet.listResponse exDbOrd exReq).2 ≠
      IngredientViewSet.get_query exDbOrd 1 := by
  refine ⟨?_, ?_, rfl, ?_, ?_⟩ <;> decide

/-- C8: the utility addition function applied to 5 and 6 returns 11. -/
theorem c8_calc_add_five_six : calcAdd 5 6 = 11 := by
  decide

/-- C9: a recipe created through the recipe create endpoint is stored with
the authenticated requester as its owner, and the stored result is the same
whatever user value the request body carries. -/
theorem c9_created_recipe_owned_by_requester (db : Db) (req : Request)
    (body : RecipeBody) (u : Nat)
    (h : runAuth db RecipeViewSet.authentication_classes req = some u) :
    (RecipeViewSet.createResponse db req body).1 = 201 ∧
    (RecipeViewSet.createResponse db req body).2.recipes =
      db.recipes ++ [{ id := nextRecipeId db, user := u, title := body.title }] ∧
    ∀ v : Option Nat,
      RecipeViewSet.createResponse db req { body with user := v } =
        RecipeViewSet.createResponse db req body := by
  refine ⟨?_, ?_, ?_⟩
  · simp [RecipeViewSet.createResponse, h]
  · simp [RecipeViewSet.createResponse, h, RecipeViewSet.perform_create]
  · intro v
    simp [RecipeViewSet.createResponse, h, RecipeViewSet.perform_create]

/-- Witness for C9 at a concrete database, request and body. -/
theorem c9_created_recipe_owned_by_requester_witness :
    runAuth exDbKale RecipeViewSet.authentication_classes exReq = some 1 ∧
    ((RecipeViewSet.createResponse exDbKale exReq { title := "Curry", user := some 99 }).1 = 201 ∧
     (RecipeViewSet.createResponse exDbKale exReq { title := "Curry", user := some 99 }).2.recipes =
       exDbKale.recipes ++ [{ id := nextRecipeId exDbKale, user := 1, title := "Curry" }] ∧
     ∀ v : Option Nat,
       RecipeViewSet.createResponse exDbKale exReq { title := "Curry", user := v } =
         RecipeViewSet.createResponse exDbKale exReq { title := "Curry", user := some 99 }) :=
  ⟨rfl, c9_created_recipe_owned_by_requester exDbKale exReq
    { title := "Curry", user := some 99 } 1 rfl⟩

/-- C10: an authenticated request to `/api/user/me/` reads and writes exactly
the requesting user's own account: the retrieved object is the requester,
the update succeeds, and every other user's row is left unchanged. -/
theorem c10_me_targets_requesting_user (db : Db) (req : Request) (e : String)
    (u : Nat)
    (h : runAuth db ManageUserView.authentication_classes req = some u) :
    ManageUserView.retrieveResponse db req = (200, some u) ∧
    (ManageUserView.updateResponse db req e).1 = 200 ∧
    ∀ x ∈ (ManageUserView.updateResponse db req e).2.users, x.id ≠ u → x ∈ db.users := by
  refine ⟨?_, ?_, ?_⟩
  · simp [ManageUserView.retrieveResponse, h]
  · simp [ManageUserView.updateResponse, h]
  · intro x hx hne
    simp only [ManageUserView.updateResponse, h] at hx
    rcases List.mem_map.mp hx with ⟨y, hy, hxy⟩
    by_cases hid : y.id = u
    · exfalso
      apply hne
      rw [← hxy]
      simp [hid]
    · rw [← hxy]
      simpa [hid] using hy

/-- Witness for C10 at a concrete database and request. -/
theorem c10_me_targets_requesting_user_witness :
    runAuth exDb ManageUserView.authentication_classes exReq = some 1 ∧
    (ManageUserView.retrieveResponse exDb exReq = (200, some 1) ∧
     (ManageUserView.updateResponse exDb exReq "new@example.com").1 = 200 ∧
     ∀ x ∈ (ManageUserView.updateResponse exDb exReq "new@example.com").2.users,
       x.id ≠ 1 → x ∈ exDb.users) :=
  ⟨rfl, c10_me_targets_requesting_user exDb exReq "new@example.com" 1 rfl⟩

end RecipeApp
